import Mathlib

/-!
Verification of the mock-BLE repository: the registry merger from
`bluetooth_scanner.py` and the visibility/RSSI simulator from
`continuous_ble_mock.py`, shallowly embedded over association lists
(Python `dict`s with insertion order).
-/

namespace MockBLE

/-! ## Association-list model of a Python `dict` (string keys) -/

/-- First-match lookup, `d[k]` / `d.get(k)`. -/
def lookupKey {α : Type} : List (String × α) → String → Option α
  | [], _ => none
  | p :: rest, k => if p.1 = k then some p.2 else lookupKey rest k

/-- `k in d`. -/
def containsKey {α : Type} (l : List (String × α)) (k : String) : Bool :=
  l.any (fun p => p.1 = k)

/-- `d[k] = v`: update in place if the key exists (keeping its position),
otherwise append at the end, as a Python dict does. -/
def setKey {α : Type} (l : List (String × α)) (k : String) (v : α) : List (String × α) :=
  if containsKey l k then l.map (fun p => if p.1 = k then (k, v) else p)
  else l ++ [(k, v)]

/-! ## Data model: one registry record, as built by `bluetooth_scanner.py`
(lines 80-90): fields `name`, `address`, `rssi` (may be `None`),
`last_seen`, `first_seen` (ISO strings), `times_seen`. -/

structure DeviceRecord where
  name : String
  address : String
  rssi : Option Int
  last_seen : String
  first_seen : String
  times_seen : Int
deriving Repr, DecidableEq

/-- The persisted registry: address → DeviceRecord, insertion-ordered. -/
abbrev Registry := List (String × DeviceRecord)

/-! ## Registry merger (`bluetooth_scanner.py`, main loop lines 75-99) -/

/-- One observed sighting from a scan: `device.address`, `device.name`
(may be `None`), `device.rssi` (may be absent → `None`), and the scan
timestamp. -/
structure Sighting where
  address : String
  name : Option String
  rssi : Option Int
  timestamp : String
deriving Repr, DecidableEq

/-- `device.name or "Unknown"`: `None` and the empty string are falsy. -/
def nameOrUnknown : Option String → String
  | none => "Unknown"
  | some s => if s = "" then "Unknown" else s

/-- The in-place update of an existing record (lines 94-98):
`last_seen = timestamp`, `rssi = rssi`, `times_seen += 1`, and the name is
overwritten only when the incoming name is non-"Unknown" and the stored
name is "Unknown". -/
def updateRecord (r : DeviceRecord) (s : Sighting) : DeviceRecord :=
  let name := nameOrUnknown s.name
  { r with
      last_seen := s.timestamp
      rssi := s.rssi
      times_seen := r.times_seen + 1
      name := if name ≠ "Unknown" ∧ r.name = "Unknown" then name else r.name }

/-- The record created for a brand-new address (lines 80-90):
`first_seen = last_seen = timestamp`, `times_seen = 1`,
`name = name or "Unknown"`. -/
def newRecord (s : Sighting) : DeviceRecord :=
  { name := nameOrUnknown s.name
    address := s.address
    rssi := s.rssi
    last_seen := s.timestamp
    first_seen := s.timestamp
    times_seen := 1 }

/-- One iteration of the merge loop (lines 87-99): create the record when
the address is new, update it otherwise. -/
def mergeSighting (reg : Registry) (s : Sighting) : Registry :=
  if containsKey reg s.address then
    reg.map (fun p => if p.1 = s.address then (s.address, updateRecord p.2 s) else p)
  else
    reg ++ [(s.address, newRecord s)]

/-- Folding a whole sequence of sightings into the registry, in order. -/
def mergeAll (reg : Registry) (ss : List Sighting) : Registry :=
  ss.foldl mergeSighting reg

/-- Number of sightings in `ss` addressed to `addr` — the number of merges
performed for that address. -/
def countFor (addr : String) (ss : List Sighting) : Nat :=
  (ss.filter (fun s => s.address = addr)).length

/-! ## Persistence (`bluetooth_scanner.py` lines 24-38)

`save_devices` is `json.dump(devices, f)` and `load_existing_devices` is
`json.load(f)` (returning `{}` when the file is absent or unparsable).
The file contents are modelled as the JSON document tree; the decoder
spells out the registry shape that the Python dict-of-dicts carries
implicitly. -/

/-- A JSON value, as produced/consumed by Python's `json` module. -/
inductive JVal where
  | null
  | str (s : String)
  | int (n : Int)
  | bool (b : Bool)
  | arr (xs : List JVal)
  | obj (fields : List (String × JVal))
deriving Repr

/-- `rssi` serializes to `null` or a number. -/
def encodeRssi : Option Int → JVal
  | none => JVal.null
  | some n => JVal.int n

/-- One record as the JSON object `json.dump` writes for it (the field
order of `device_info` in lines 80-90). -/
def encodeRecord (r : DeviceRecord) : JVal :=
  JVal.obj [("name", JVal.str r.name), ("address", JVal.str r.address),
    ("rssi", encodeRssi r.rssi), ("last_seen", JVal.str r.last_seen),
    ("first_seen", JVal.str r.first_seen), ("times_seen", JVal.int r.times_seen)]

/-- `save_devices` (lines 35-38): dump the whole registry as one keyed
JSON object. (`default=str` never fires: every field is serializable.) -/
def save_devices (reg : Registry) : JVal :=
  JVal.obj (reg.map (fun p => (p.1, encodeRecord p.2)))

def asStr : Option JVal → Option String
  | some (JVal.str s) => some s
  | _ => none

def asInt : Option JVal → Option Int
  | some (JVal.int n) => some n
  | _ => none

def asRssi : Option JVal → Option (Option Int)
  | some JVal.null => some none
  | some (JVal.int n) => some (some n)
  | _ => none

/-- Read one record back from its JSON object. -/
def decodeRecord : JVal → Option DeviceRecord
  | JVal.obj fs =>
    match asStr (lookupKey fs "name"), asStr (lookupKey fs "address"),
        asRssi (lookupKey fs "rssi"), asStr (lookupKey fs "last_seen"),
        asStr (lookupKey fs "first_seen"), asInt (lookupKey fs "times_seen") with
    | some nm, some ad, some rs, some ls, some fsn, some ts =>
      some { name := nm, address := ad, rssi := rs, last_seen := ls,
             first_seen := fsn, times_seen := ts }
    | _, _, _, _, _, _ => none
  | _ => none

/-- Read a whole registry back from the keyed JSON object. -/
def decodeRegistry : JVal → Option Registry
  | JVal.obj fs =>
    fs.foldr (fun p acc =>
      match decodeRecord p.2, acc with
      | some r, some l => some ((p.1, r) :: l)
      | _, _ => none) (some [])
  | _ => none

/-- `load_existing_devices` (lines 24-32): `{}` when the file does not
exist or fails to parse as a registry, the stored mapping otherwise. -/
def load_existing_devices (file : Option JVal) : Registry :=
  match file with
  | none => []
  | some j => (decodeRegistry j).getD []

/-! ## Visibility simulator (`continuous_ble_mock.py`)

Configuration constants, lines 22-25. -/

def MIN_VISIBLE_DEVICES : Int := 10

def RSSI_RANGE : Int × Int := (-50, -25)

def RSSI_FLUCTUATION : Int := 5

/-- One per-cycle projection (lines 115-123). -/
structure VisibleView where
  address : String
  name : String
  rssi : Int
  lastSeen : String
  firstSeen : String
  timesSeen : Int
  isConnectable : Bool
deriving Repr, DecidableEq

/-- The broadcaster's mutable state (lines 30-32). -/
structure BLEState where
  all_devices : Registry
  visible_devices : List (String × VisibleView)
  device_rssi : List (String × Int)
deriving Repr, DecidableEq

/-- The exceptions the simulator can raise: `ValueError` from
`random.randint`/`random.sample` on an empty range, `KeyError` from a
dict subscript of a missing key. -/
inductive PyErr where
  | valueError
  | keyError
deriving Repr, DecidableEq

/-- The stream of pseudo-random draws consumed by one scan cycle: any
concrete run of Python's PRNG corresponds to one `Oracle`.
`numUnknownChoice lo hi` is the value `random.randint(lo, hi)` would
return (when `lo ≤ hi`); `sampleChoice pool k` the list
`random.sample(pool, k)` would return; `rssiChange i` the i-th visible
device's `randint(-RSSI_FLUCTUATION, RSSI_FLUCTUATION)` draw;
`connectable i` the i-th `random.random() < 0.7` outcome. -/
structure Oracle where
  numUnknownChoice : Int → Int → Int
  sampleChoice : List String → Int → List String
  rssiChange : Nat → Int
  connectable : Nat → Bool

/-- `random.randint(lo, hi)`: raises `ValueError` when the range is
empty, otherwise returns the PRNG's draw. -/
def pyRandint (lo hi choice : Int) : Except PyErr Int :=
  if hi < lo then Except.error PyErr.valueError else Except.ok choice

/-- `random.sample(pool, k)`: raises `ValueError` when `k` is negative or
exceeds the population, otherwise returns the PRNG's sample. -/
def pySample (pool : List String) (k : Int) (choice : List String) :
    Except PyErr (List String) :=
  if k < 0 ∨ (pool.length : Int) < k then Except.error PyErr.valueError
  else Except.ok choice

/-- `d[k]` on the reading side: `KeyError` when absent. -/
def pyLookup {α : Type} (l : List (String × α)) (k : String) : Except PyErr α :=
  match lookupKey l k with
  | some v => Except.ok v
  | none => Except.error PyErr.keyError

/-- Line 89: addresses whose record's name is not `"Unknown"`. -/
def named_addrs (devs : Registry) : List String :=
  (devs.filter (fun p => p.2.name ≠ "Unknown")).map Prod.fst

/-- Line 90: the remaining addresses. -/
def unknown_addrs (devs : Registry) : List String :=
  (devs.map Prod.fst).filter (fun a => ¬ (named_addrs devs).contains a)

/-- The per-visible-address loop (lines 106-123): read the device and its
stored baseline, perturb by the draw, clamp into `RSSI_RANGE`, store the
new baseline, and emit the `VisibleView`. `i` counts loop iterations to
index the oracle's draws. -/
def scanLoop (devs : Registry) (o : Oracle) (now : String) :
    List String → Nat → List (String × VisibleView) → List (String × Int) →
    Except PyErr (List (String × VisibleView) × List (String × Int))
  | [], _, vis, rssiMap => Except.ok (vis, rssiMap)
  | addr :: rest, i, vis, rssiMap =>
    match pyLookup devs addr with
    | Except.error e => Except.error e
    | Except.ok device =>
      match pyLookup rssiMap addr with
      | Except.error e => Except.error e
      | Except.ok current_rssi =>
        match pyRandint (-RSSI_FLUCTUATION) RSSI_FLUCTUATION (o.rssiChange i) with
        | Except.error e => Except.error e
        | Except.ok change =>
          let new_rssi := max RSSI_RANGE.1 (min RSSI_RANGE.2 (current_rssi + change))
          let view : VisibleView :=
            { address := addr, name := device.name, rssi := new_rssi,
              lastSeen := now, firstSeen := device.first_seen,
              timesSeen := device.times_seen, isConnectable := o.connectable i }
          scanLoop devs o now rest (i + 1) (setKey vis addr view)
            (setKey rssiMap addr new_rssi)

/-- `simulate_scan_cycle` (lines 78-125): all named addresses are always
visible; a random number of unknown addresses — drawn from
`randint(max(0, MIN_VISIBLE_DEVICES - len(named)), min(len(unknown), 15))`
— is sampled and appended; then each visible address gets a fresh
timestamped view with a clamped random-walk RSSI. Returns the visible
map together with the successor state. -/
def simulate_scan_cycle (st : BLEState) (o : Oracle) (now : String) :
    Except PyErr (List (String × VisibleView) × BLEState) :=
  let named := named_addrs st.all_devices
  let unknowns := unknown_addrs st.all_devices
  let lo := max 0 (MIN_VISIBLE_DEVICES - (named.length : Int))
  let hi := min ((unknowns.length : Int)) 15
  match pyRandint lo hi (o.numUnknownChoice lo hi) with
  | Except.error e => Except.error e
  | Except.ok num_unknown =>
    match pySample unknowns num_unknown (o.sampleChoice unknowns num_unknown) with
    | Except.error e => Except.error e
    | Except.ok sampled =>
      let visible := named ++ sampled
      match scanLoop st.all_devices o now visible 0 [] st.device_rssi with
      | Except.error e => Except.error e
      | Except.ok (vis, rssiMap) =>
        Except.ok (vis, { st with visible_devices := vis, device_rssi := rssiMap })

/-- The PRNG draws consumed by `load_devices`: `initRssi i` is the i-th
address's `random.randint(*RSSI_RANGE)` draw (the range is nonempty, so
this call never raises; the library guarantees the draw lies in the
band, which theorems take as a hypothesis). -/
structure InitOracle where
  initRssi : Nat → Int

/-- Lines 46-47: `device_rssi[addr] = randint(*RSSI_RANGE)` for each
address of the registry, in order. -/
def initRssiLoop (o : InitOracle) :
    List String → Nat → List (String × Int) → List (String × Int)
  | [], _, acc => acc
  | a :: rest, i, acc => initRssiLoop o rest (i + 1) (setKey acc a (o.initRssi i))

/-- The state after `load_devices` with registry `devs` (lines 34-55,
I/O and printing aside): `all_devices` loaded, every baseline RSSI
initialized. -/
def load_devices (devs : Registry) (o : InitOracle) : BLEState :=
  { all_devices := devs
    visible_devices := []
    device_rssi := initRssiLoop o (devs.map Prod.fst) 0 [] }

/-- `n` consecutive scan cycles of the broadcast loop (lines 183-206),
cycle `j` using oracle `os j` and timestamp `nows j`. -/
def runCycles (os : Nat → Oracle) (nows : Nat → String) :
    Nat → BLEState → Except PyErr BLEState
  | 0, st => Except.ok st
  | n + 1, st =>
    match simulate_scan_cycle st (os n) (nows n) with
    | Except.error e => Except.error e
    | Except.ok (_, st') => runCycles os nows n st'

/-- Every stored baseline lies in the configured strong-signal band. -/
def rssiInBand (m : List (String × Int)) : Prop :=
  ∀ p ∈ m, RSSI_RANGE.1 ≤ p.2 ∧ p.2 ≤ RSSI_RANGE.2

/-! ## Concrete fixtures used to evaluate the statements on real inputs -/

/-- A named registry record, rssi −40, both timestamps `"t0"`, seen once. -/
def mkRec (nm ad : String) : DeviceRecord :=
  { name := nm, address := ad, rssi := some (-40), last_seen := "t0",
    first_seen := "t0", times_seen := 1 }

/-- The spec's §8 scenario registry: `A` named `"Foo"`, `B` unknown. -/
def regAB : Registry := [("A", mkRec "Foo" "A"), ("B", mkRec "Unknown" "B")]

/-- The registry of the spec's capping scenario: 1 named + 3 unknown. -/
def regC1 : Registry :=
  [("F", mkRec "Foo" "F"), ("U1", mkRec "Unknown" "U1"),
   ("U2", mkRec "Unknown" "U2"), ("U3", mkRec "Unknown" "U3")]

/-- A registry of 10 named devices, enough to make a scan cycle succeed
with `MIN_VISIBLE_DEVICES = 10`. -/
def reg10 : Registry :=
  [("A0", mkRec "N0" "A0"), ("A1", mkRec "N1" "A1"), ("A2", mkRec "N2" "A2"),
   ("A3", mkRec "N3" "A3"), ("A4", mkRec "N4" "A4"), ("A5", mkRec "N5" "A5"),
   ("A6", mkRec "N6" "A6"), ("A7", mkRec "N7" "A7"), ("A8", mkRec "N8" "A8"),
   ("A9", mkRec "N9" "A9")]

/-- A load-time PRNG whose every `randint(*RSSI_RANGE)` draw is −30. -/
def io30 : InitOracle := { initRssi := fun _ => -30 }

/-- A cycle PRNG: `randint` draws its lower bound, `sample` takes the
pool's prefix, every RSSI perturbation is 0, every device connectable. -/
def simOracle : Oracle :=
  { numUnknownChoice := fun lo _ => lo
    sampleChoice := fun pool k => pool.take k.toNat
    rssiChange := fun _ => 0
    connectable := fun _ => true }

/-- The broadcaster state right after loading `reg10`. -/
def st10 : BLEState := load_devices reg10 io30

/-- The broadcaster state right after loading `regC1`. -/
def stC1 : BLEState := load_devices regC1 io30

/-- The view emitted for a device with name `nm` at address `ad` in the
fixture cycle (baseline −30, zero perturbation, timestamp `"t1"`). -/
def view30 (ad nm : String) : VisibleView :=
  { address := ad, name := nm, rssi := -30, lastSeen := "t1", firstSeen := "t0",
    timesSeen := 1, isConnectable := true }

/-- The visible map produced by one fixture cycle over `reg10`. -/
def vis10 : List (String × VisibleView) :=
  [("A0", view30 "A0" "N0"), ("A1", view30 "A1" "N1"), ("A2", view30 "A2" "N2"),
   ("A3", view30 "A3" "N3"), ("A4", view30 "A4" "N4"), ("A5", view30 "A5" "N5"),
   ("A6", view30 "A6" "N6"), ("A7", view30 "A7" "N7"), ("A8", view30 "A8" "N8"),
   ("A9", view30 "A9" "N9")]

/-- The baselines after the fixture cycle (all still −30). -/
def rssi30 : List (String × Int) :=
  [("A0", -30), ("A1", -30), ("A2", -30), ("A3", -30), ("A4", -30),
   ("A5", -30), ("A6", -30), ("A7", -30), ("A8", -30), ("A9", -30)]

/-- The broadcaster state after one fixture cycle over `reg10`. -/
def st10' : BLEState :=
  { all_devices := reg10, visible_devices := vis10, device_rssi := rssi30 }

/-- The spec's merge scenario for `B`: empty name, rssi −60, time `t2`. -/
def sB : Sighting := { address := "B", name := some "", rssi := some (-60), timestamp := "t2" }

/-- The spec's merge scenario for a new address `C`: name `"Bar"`,
rssi −40, time `t1`. -/
def sC : Sighting := { address := "C", name := some "Bar", rssi := some (-40), timestamp := "t1" }

/-- Two further sightings of `A`, both with empty/absent names. -/
def ssA : List Sighting :=
  [{ address := "A", name := some "", rssi := some (-60), timestamp := "t2" },
   { address := "A", name := none, rssi := none, timestamp := "t3" }]

/-- Two sightings of a fresh address `X`. -/
def ssX : List Sighting :=
  [{ address := "X", name := none, rssi := some (-55), timestamp := "t1" },
   { address := "X", name := some "Xavier", rssi := some (-54), timestamp := "t2" }]

/-! ## Association-list lemmas -/

theorem lookupKey_append {α : Type} (l l' : List (String × α)) (k : String) :
    lookupKey (l ++ l') k = ((lookupKey l k).orElse (fun _ => lookupKey l' k)) := by
  induction l with
  | nil => simp [lookupKey]
  | cons p rest ih =>
    by_cases h : p.1 = k <;> simp [lookupKey, h, ih]

theorem containsKey_eq_isSome {α : Type} (l : List (String × α)) (k : String) :
    containsKey l k = (lookupKey l k).isSome := by
  induction l with
  | nil => simp [containsKey, lookupKey]
  | cons p rest ih =>
    by_cases h : p.1 = k
    · simp [containsKey, lookupKey, h]
    · simp only [containsKey, lookupKey, List.any_cons, h]
      simpa [containsKey, h] using ih

theorem lookupKey_map_update {α : Type} (l : List (String × α)) (k : String)
    (f : α → α) (a : String) :
    lookupKey (l.map (fun p => if p.1 = k then (k, f p.2) else p)) a =
      if a = k then (lookupKey l a).map f else lookupKey l a := by
  induction l with
  | nil => by_cases h : a = k <;> simp [lookupKey, h]
  | cons p rest ih =>
    by_cases ha : a = k
    · subst ha
      by_cases hp : p.1 = a <;> simp [lookupKey, hp, ih]
    · by_cases hp : p.1 = k
      · have hka : ¬ k = a := fun hh => ha hh.symm
        have hpa : ¬ p.1 = a := by rw [hp]; exact hka
        simp [lookupKey, hp, hpa, hka, ih, ha]
      · by_cases hpa : p.1 = a <;> simp [lookupKey, hp, hpa, ih, ha]

theorem containsKey_map_update {α : Type} (l : List (String × α)) (k : String)
    (v : α) (a : String) :
    containsKey (l.map (fun p => if p.1 = k then (k, v) else p)) a = containsKey l a := by
  induction l with
  | nil => simp [containsKey]
  | cons p rest ih =>
    simp only [containsKey, List.map_cons, List.any_cons] at ih ⊢
    by_cases hp : p.1 = k
    · rw [if_pos hp, ih]
      simp [hp]
    · rw [if_neg hp, ih]

theorem containsKey_setKey {α : Type} (l : List (String × α)) (k : String)
    (v : α) (a : String) :
    containsKey (setKey l k v) a = (containsKey l a || decide (k = a)) := by
  unfold setKey
  by_cases hc : containsKey l k
  · rw [if_pos hc, containsKey_map_update]
    by_cases hka : k = a
    · subst hka; simp [hc]
    · simp [hka]
  · rw [if_neg hc]
    simp [containsKey, List.any_append]

theorem containsKey_setKey_self {α : Type} (l : List (String × α)) (k : String) (v : α) :
    containsKey (setKey l k v) k = true := by
  simp [containsKey_setKey]

theorem lookupKey_setKey_ne {α : Type} (l : List (String × α)) (k : String)
    (v : α) (a : String) (h : a ≠ k) :
    lookupKey (setKey l k v) a = lookupKey l a := by
  unfold setKey
  by_cases hc : containsKey l k
  · rw [if_pos hc]
    simpa [h] using lookupKey_map_update l k (fun _ => v) a
  · rw [if_neg hc, lookupKey_append]
    have hka : ¬ k = a := fun hh => h hh.symm
    cases hl : lookupKey l a <;> simp [hl, lookupKey, hka]

theorem rssiInBand_setKey (m : List (String × Int)) (k : String) (v : Int)
    (hm : rssiInBand m) (h1 : RSSI_RANGE.1 ≤ v) (h2 : v ≤ RSSI_RANGE.2) :
    rssiInBand (setKey m k v) := by
  unfold setKey
  by_cases hc : containsKey m k
  · rw [if_pos hc]
    intro p hp
    rcases List.mem_map.mp hp with ⟨q, hq, rfl⟩
    by_cases hqk : q.1 = k
    · simpa [hqk] using And.intro h1 h2
    · simpa [hqk] using hm q hq
  · rw [if_neg hc]
    intro p hp
    rcases List.mem_append.mp hp with hin | hin
    · exact hm p hin
    · rcases List.mem_singleton.mp hin with rfl
      exact ⟨h1, h2⟩

/-! ## Merger lemmas -/

theorem mergeAll_nil (reg : Registry) : mergeAll reg [] = reg := rfl

theorem mergeAll_cons (reg : Registry) (s : Sighting) (ss : List Sighting) :
    mergeAll reg (s :: ss) = mergeAll (mergeSighting reg s) ss := rfl

theorem countFor_nil (a : String) : countFor a [] = 0 := rfl

theorem countFor_cons (a : String) (s : Sighting) (ss : List Sighting) :
    countFor a (s :: ss) = (if s.address = a then 1 else 0) + countFor a ss := by
  by_cases h : s.address = a <;> simp [countFor, h, Nat.add_comm]

theorem mergeSighting_lookup_self (reg : Registry) (s : Sighting) (r : DeviceRecord)
    (h : lookupKey reg s.address = some r) :
    lookupKey (mergeSighting reg s) s.address = some (updateRecord r s) := by
  have hc : containsKey reg s.address = true := by
    rw [containsKey_eq_isSome, h]; rfl
  unfold mergeSighting
  rw [if_pos hc]
  simpa [h] using lookupKey_map_update reg s.address (fun r => updateRecord r s) s.address

theorem mergeSighting_lookup_other (reg : Registry) (s : Sighting) (a : String)
    (h : a ≠ s.address) :
    lookupKey (mergeSighting reg s) a = lookupKey reg a := by
  unfold mergeSighting
  by_cases hc : containsKey reg s.address
  · rw [if_pos hc]
    simpa [h] using lookupKey_map_update reg s.address (fun r => updateRecord r s) a
  · rw [if_neg hc, lookupKey_append]
    have hsa : ¬ s.address = a := fun hh => h hh.symm
    cases hl : lookupKey reg a <;> simp [hl, lookupKey, hsa]

theorem mergeSighting_lookup_new (reg : Registry) (s : Sighting)
    (h : lookupKey reg s.address = none) :
    lookupKey (mergeSighting reg s) s.address = some (newRecord s) := by
  have hc : containsKey reg s.address = false := by
    rw [containsKey_eq_isSome, h]; rfl
  unfold mergeSighting
  rw [if_neg (by simp [hc]), lookupKey_append]
  simp [h, lookupKey]

theorem mergeSighting_length_new (reg : Registry) (s : Sighting)
    (h : lookupKey reg s.address = none) :
    (mergeSighting reg s).length = reg.length + 1 := by
  have hc : containsKey reg s.address = false := by
    rw [containsKey_eq_isSome, h]; rfl
  unfold mergeSighting
  rw [if_neg (by simp [hc])]
  simp

theorem mergeSighting_preserves (reg : Registry) (s : Sighting) (a : String)
    (r : DeviceRecord) (h : lookupKey reg a = some r) :
    ∃ r', lookupKey (mergeSighting reg s) a = some r' ∧
      r'.first_seen = r.first_seen ∧
      (r.name ≠ "Unknown" → r'.name = r.name) ∧
      r'.times_seen = r.times_seen + (if s.address = a then 1 else 0) := by
  by_cases hsa : s.address = a
  · subst hsa
    refine ⟨updateRecord r s, mergeSighting_lookup_self reg s r h, rfl, ?_, by simp [updateRecord]⟩
    intro hn
    show (if nameOrUnknown s.name ≠ "Unknown" ∧ r.name = "Unknown"
          then nameOrUnknown s.name else r.name) = r.name
    rw [if_neg]
    rintro ⟨-, h2⟩
    exact hn h2
  · refine ⟨r, ?_, rfl, fun _ => rfl, by simp [hsa]⟩
    rw [mergeSighting_lookup_other reg s a (fun hh => hsa hh.symm), h]

theorem mergeAll_preserves (reg : Registry) (ss : List Sighting) (a : String)
    (r : DeviceRecord) (h : lookupKey reg a = some r) :
    ∃ r', lookupKey (mergeAll reg ss) a = some r' ∧
      r'.first_seen = r.first_seen ∧
      (r.name ≠ "Unknown" → r'.name = r.name) ∧
      r'.times_seen = r.times_seen + (countFor a ss : Int) := by
  induction ss generalizing reg r with
  | nil => exact ⟨r, h, rfl, fun _ => rfl, by simp [countFor_nil]⟩
  | cons s ss ih =>
    obtain ⟨r₁, h1, hfs1, hnm1, hts1⟩ := mergeSighting_preserves reg s a r h
    obtain ⟨r', h2, hfs2, hnm2, hts2⟩ := ih (mergeSighting reg s) r₁ h1
    refine ⟨r', by rwa [mergeAll_cons], hfs2.trans hfs1, ?_, ?_⟩
    · intro hn
      have e1 : r₁.name = r.name := hnm1 hn
      have : r₁.name ≠ "Unknown" := by rw [e1]; exact hn
      exact (hnm2 this).trans e1
    · rw [hts2, hts1, countFor_cons]
      by_cases hsa : s.address = a
      · simp only [hsa, if_pos]
        push_cast
        ring
      · simp [hsa]

/-! ## Simulator lemmas -/

theorem pyRandint_fluct (c : Int) :
    pyRandint (-RSSI_FLUCTUATION) RSSI_FLUCTUATION c = Except.ok c := by
  norm_num [pyRandint, RSSI_FLUCTUATION]

theorem clamp_mem_band (x : Int) :
    RSSI_RANGE.1 ≤ max RSSI_RANGE.1 (min RSSI_RANGE.2 x) ∧
      max RSSI_RANGE.1 (min RSSI_RANGE.2 x) ≤ RSSI_RANGE.2 :=
  ⟨le_max_left _ _, max_le (by norm_num [RSSI_RANGE]) (min_le_left _ _)⟩

theorem scanLoop_contains (devs : Registry) (o : Oracle) (now : String) :
    ∀ (todo : List String) (i : Nat) (vis : List (String × VisibleView))
      (m : List (String × Int)) (vis' : List (String × VisibleView))
      (m' : List (String × Int)),
      scanLoop devs o now todo i vis m = Except.ok (vis', m') →
      ∀ a, (containsKey vis a = true ∨ a ∈ todo) → containsKey vis' a = true := by
  intro todo
  induction todo with
  | nil =>
    intro i vis m vis' m' h a ha
    simp only [scanLoop, Except.ok.injEq, Prod.mk.injEq] at h
    rcases ha with ha | ha
    · rw [← h.1]; exact ha
    · simp at ha
  | cons addr rest ih =>
    intro i vis m vis' m' h a ha
    cases hdev : pyLookup devs addr with
    | error e => simp [scanLoop, hdev] at h
    | ok device =>
      cases hcur : pyLookup m addr with
      | error e => simp [scanLoop, hdev, hcur] at h
      | ok current =>
        simp only [scanLoop, hdev, hcur, pyRandint_fluct] at h
        refine ih _ _ _ _ _ h a ?_
        rcases ha with ha | ha
        · exact Or.inl (by simp [containsKey_setKey, ha])
        · rcases List.mem_cons.mp ha with rfl | ha
          · exact Or.inl (containsKey_setKey_self _ _ _)
          · exact Or.inr ha

theorem scanLoop_frame (devs : Registry) (o : Oracle) (now : String) :
    ∀ (todo : List String) (i : Nat) (vis : List (String × VisibleView))
      (m : List (String × Int)) (vis' : List (String × VisibleView))
      (m' : List (String × Int)),
      scanLoop devs o now todo i vis m = Except.ok (vis', m') →
      ∀ a, containsKey vis' a = false → lookupKey m' a = lookupKey m a := by
  intro todo
  induction todo with
  | nil =>
    intro i vis m vis' m' h a _
    simp only [scanLoop, Except.ok.injEq, Prod.mk.injEq] at h
    rw [h.2]
  | cons addr rest ih =>
    intro i vis m vis' m' h a ha
    cases hdev : pyLookup devs addr with
    | error e => simp [scanLoop, hdev] at h
    | ok device =>
      cases hcur : pyLookup m addr with
      | error e => simp [scanLoop, hdev, hcur] at h
      | ok current =>
        simp only [scanLoop, hdev, hcur, pyRandint_fluct] at h
        have haddr : containsKey vis' addr = true :=
          scanLoop_contains devs o now _ _ _ _ _ _ h addr
            (Or.inl (containsKey_setKey_self _ _ _))
        have hne : a ≠ addr := by
          intro hh; rw [hh, haddr] at ha; exact Bool.noConfusion ha
        rw [ih _ _ _ _ _ h a ha, lookupKey_setKey_ne _ _ _ _ hne]

theorem scanLoop_band (devs : Registry) (o : Oracle) (now : String) :
    ∀ (todo : List String) (i : Nat) (vis : List (String × VisibleView))
      (m : List (String × Int)) (vis' : List (String × VisibleView))
      (m' : List (String × Int)),
      rssiInBand m →
      scanLoop devs o now todo i vis m = Except.ok (vis', m') →
      rssiInBand m' := by
  intro todo
  induction todo with
  | nil =>
    intro i vis m vis' m' hm h
    simp only [scanLoop, Except.ok.injEq, Prod.mk.injEq] at h
    rw [← h.2]; exact hm
  | cons addr rest ih =>
    intro i vis m vis' m' hm h
    cases hdev : pyLookup devs addr with
    | error e => simp [scanLoop, hdev] at h
    | ok device =>
      cases hcur : pyLookup m addr with
      | error e => simp [scanLoop, hdev, hcur] at h
      | ok current =>
        simp only [scanLoop, hdev, hcur, pyRandint_fluct] at h
        refine ih _ _ _ _ _ ?_ h
        exact rssiInBand_setKey _ _ _ hm (clamp_mem_band _).1 (clamp_mem_band _).2

theorem initRssiLoop_band (o : InitOracle)
    (hio : ∀ i, RSSI_RANGE.1 ≤ o.initRssi i ∧ o.initRssi i ≤ RSSI_RANGE.2) :
    ∀ (addrs : List String) (i : Nat) (acc : List (String × Int)),
      rssiInBand acc → rssiInBand (initRssiLoop o addrs i acc) := by
  intro addrs
  induction addrs with
  | nil => intro i acc hacc; exact hacc
  | cons a rest ih =>
    intro i acc hacc
    exact ih _ _ (rssiInBand_setKey _ _ _ hacc (hio i).1 (hio i).2)

theorem simulate_ok_elim (st : BLEState) (o : Oracle) (now : String)
    (vis : List (String × VisibleView)) (st' : BLEState)
    (h : simulate_scan_cycle st o now = Except.ok (vis, st')) :
    ∃ (sampled : List String) (rssiMap : List (String × Int)),
      scanLoop st.all_devices o now (named_addrs st.all_devices ++ sampled) 0 []
          st.device_rssi = Except.ok (vis, rssiMap) ∧
      st'.all_devices = st.all_devices ∧
      st'.visible_devices = vis ∧
      st'.device_rssi = rssiMap := by
  rw [simulate_scan_cycle] at h
  simp only [] at h
  split at h
  · exact absurd h (by simp)
  · split at h
    · exact absurd h (by simp)
    · next sampled hsample =>
      split at h
      · exact absurd h (by simp)
      · next vis2 rssiMap hscan =>
        injection h with h'
        injection h' with h1 h2
        subst h1
        subst h2
        exact ⟨sampled, rssiMap, hscan, rfl, rfl, rfl⟩

theorem simulate_band (st : BLEState) (o : Oracle) (now : String)
    (vis : List (String × VisibleView)) (st' : BLEState)
    (hm : rssiInBand st.device_rssi)
    (h : simulate_scan_cycle st o now = Except.ok (vis, st')) :
    rssiInBand st'.device_rssi := by
  obtain ⟨sampled, rssiMap, hscan, -, -, hrm⟩ := simulate_ok_elim st o now vis st' h
  rw [hrm]
  exact scanLoop_band _ _ _ _ _ _ _ _ _ hm hscan

theorem runCycles_band (os : Nat → Oracle) (nows : Nat → String) :
    ∀ (n : Nat) (st st' : BLEState), rssiInBand st.device_rssi →
      runCycles os nows n st = Except.ok st' → rssiInBand st'.device_rssi := by
  intro n
  induction n with
  | zero =>
    intro st st' hm h
    injection h with h'
    rw [← h']
    exact hm
  | succ n ih =>
    intro st st' hm h
    cases hsim : simulate_scan_cycle st (os n) (nows n) with
    | error e => simp [runCycles, hsim] at h
    | ok p =>
      simp only [runCycles, hsim] at h
      exact ih p.2 st' (simulate_band st (os n) (nows n) p.1 p.2 hm (by rw [hsim])) h

/-! ## The claims -/

/-- Claim C1: the spec's capping scenario — 1 named + 3 unknown addresses
with minimum-visible 10 — is exactly where the code breaks instead of
capping: `random.randint(max(0, 10 - 1), min(3, 15))` is
`randint(9, 3)`, an empty range, so `simulate_scan_cycle` raises
`ValueError` rather than returning named ∪ all 3 unknown. -/
theorem simulate_raises_on_small_unknown_pool :
    simulate_scan_cycle stC1 simOracle "t1" = Except.error PyErr.valueError := by
  rfl

/-- Claim C2: whenever a simulated scan cycle returns, its visible set
contains every address of the registry whose record's name is not
`"Unknown"`. -/
theorem simulate_visible_superset_named (st : BLEState) (o : Oracle) (now : String)
    (vis : List (String × VisibleView)) (st' : BLEState)
    (h : simulate_scan_cycle st o now = Except.ok (vis, st')) :
    ∀ a ∈ named_addrs st.all_devices, containsKey vis a = true := by
  intro a ha
  obtain ⟨sampled, rssiMap, hscan, -, -, -⟩ := simulate_ok_elim st o now vis st' h
  exact scanLoop_contains _ _ _ _ _ _ _ _ _ hscan a (Or.inr (List.mem_append_left _ ha))

/-- Claim C3: after loading (which draws every baseline from
`randint(*RSSI_RANGE)`, hence inside the band) and any number of scan
cycles with arbitrary perturbation draws, every stored per-address
baseline RSSI lies in `[RSSI_RANGE.1, RSSI_RANGE.2]`: each cycle's
perturbed value is clamped back into the band before being stored. -/
theorem device_rssi_always_in_band (devs : Registry) (io : InitOracle)
    (os : Nat → Oracle) (nows : Nat → String) (n : Nat) (st : BLEState)
    (hio : ∀ i, RSSI_RANGE.1 ≤ io.initRssi i ∧ io.initRssi i ≤ RSSI_RANGE.2)
    (hrun : runCycles os nows n (load_devices devs io) = Except.ok st) :
    rssiInBand st.device_rssi := by
  have hinit : rssiInBand (load_devices devs io).device_rssi :=
    initRssiLoop_band io hio _ 0 [] (by intro p hp; cases hp)
  exact runCycles_band os nows n _ st hinit hrun

/-- Claim C4: merging a sighting whose address already has a record sets
`last_seen` to the sighting's timestamp, `rssi` to the sighting's rssi
(null included), increments `times_seen` by exactly 1, and overwrites
the name only when the incoming name is non-empty/non-"Unknown" while
the stored name is "Unknown" — otherwise the stored name is unchanged. -/
theorem merge_existing_updates (reg : Registry) (s : Sighting) (r : DeviceRecord)
    (h : lookupKey reg s.address = some r) :
    ∃ r', lookupKey (mergeSighting reg s) s.address = some r' ∧
      r'.last_seen = s.timestamp ∧
      r'.rssi = s.rssi ∧
      r'.times_seen = r.times_seen + 1 ∧
      r'.name = (if nameOrUnknown s.name ≠ "Unknown" ∧ r.name = "Unknown"
                 then nameOrUnknown s.name else r.name) :=
  ⟨updateRecord r s, mergeSighting_lookup_self reg s r h, rfl, rfl, rfl, rfl⟩

/-- Claim C5: merging a sighting for an address not yet in the registry
creates a record with `first_seen = last_seen = timestamp`,
`times_seen = 1`, `name = name or "Unknown"`, `rssi` as observed, and
grows the registry by exactly one record. -/
theorem merge_new_creates (reg : Registry) (s : Sighting)
    (h : lookupKey reg s.address = none) :
    lookupKey (mergeSighting reg s) s.address =
      some { name := nameOrUnknown s.name, address := s.address, rssi := s.rssi,
             last_seen := s.timestamp, first_seen := s.timestamp, times_seen := 1 } ∧
    (mergeSighting reg s).length = reg.length + 1 :=
  ⟨mergeSighting_lookup_new reg s h, mergeSighting_length_new reg s h⟩

/-- Claim C6: once a record's name is non-"Unknown", no sequence of
further merges — in particular ones with "Unknown"/empty incoming
names — ever changes the stored name (so it never reverts to
"Unknown"). -/
theorem name_never_reverts (reg : Registry) (a : String) (r : DeviceRecord)
    (ss : List Sighting) (h : lookupKey reg a = some r) (hn : r.name ≠ "Unknown") :
    ∃ r', lookupKey (mergeAll reg ss) a = some r' ∧ r'.name = r.name := by
  obtain ⟨r', h1, -, h3, -⟩ := mergeAll_preserves reg ss a r h
  exact ⟨r', h1, h3 hn⟩

/-- Claim C7: starting from a registry without the address, after any
sequence of merged sightings the record's `times_seen` equals the
number of merges performed for that address (absent when that number
is zero, since only a merge creates the record). -/
theorem times_seen_counts_merges (reg : Registry) (a : String) (ss : List Sighting)
    (h : lookupKey reg a = none) :
    Option.map DeviceRecord.times_seen (lookupKey (mergeAll reg ss) a) =
      (if countFor a ss = 0 then none else some ((countFor a ss : Int))) := by
  induction ss generalizing reg with
  | nil => simp [mergeAll_nil, h, countFor_nil]
  | cons s ss ih =>
    rw [mergeAll_cons]
    by_cases hsa : s.address = a
    · subst hsa
      have hnew : lookupKey (mergeSighting reg s) s.address = some (newRecord s) :=
        mergeSighting_lookup_new reg s h
      obtain ⟨r', h1, -, -, hts⟩ := mergeAll_preserves (mergeSighting reg s) ss s.address _ hnew
      rw [h1] at *
      have hcount : countFor s.address (s :: ss) = 1 + countFor s.address ss := by
        rw [countFor_cons, if_pos rfl]
      rw [hcount]
      have : (newRecord s).times_seen = 1 := rfl
      simp only [Option.map_some', hts, this]
      rw [if_neg (by omega)]
      congr 1
    · have hkeep : lookupKey (mergeSighting reg s) a = none := by
        rw [mergeSighting_lookup_other reg s a (fun hh => hsa hh.symm)]
        exact h
      rw [ih (mergeSighting reg s) hkeep, countFor_cons, if_neg hsa, Nat.zero_add]

/-- Claim C8: `first_seen` is invariant under any number of subsequent
merges for the same address: it keeps the value it had when the record
was looked up. -/
theorem first_seen_invariant (reg : Registry) (a : String) (r : DeviceRecord)
    (ss : List Sighting) (h : lookupKey reg a = some r) :
    ∃ r', lookupKey (mergeAll reg ss) a = some r' ∧ r'.first_seen = r.first_seen := by
  obtain ⟨r', h1, h2, -, -⟩ := mergeAll_preserves reg ss a r h
  exact ⟨r', h1, h2⟩

/-- Claim C9: persistence round-trips — saving any registry with
`save_devices` and reloading the written document with
`load_existing_devices` yields the identical keyed mapping. -/
theorem save_load_roundtrip (reg : Registry) :
    load_existing_devices (some (save_devices reg)) = reg := by
  have hrec : ∀ r : DeviceRecord, decodeRecord (encodeRecord r) = some r := by
    intro r
    obtain ⟨nm, ad, rs, ls, fs, ts⟩ := r
    cases rs <;> rfl
  have hreg : decodeRegistry (save_devices reg) = some reg := by
    induction reg with
    | nil => rfl
    | cons p rest ih =>
      simp only [save_devices, decodeRegistry, List.map_cons, List.foldr_cons, hrec]
      simp only [save_devices, decodeRegistry] at ih
      rw [ih]
  rw [load_existing_devices, hreg]
  rfl

/-- Claim C10: a returning call to `simulate_scan_cycle` leaves
`all_devices` unchanged and changes `device_rssi` only at addresses of
the returned visible set: every address outside it keeps its previous
stored baseline. -/
theorem simulate_frame (st : BLEState) (o : Oracle) (now : String)
    (vis : List (String × VisibleView)) (st' : BLEState)
    (h : simulate_scan_cycle st o now = Except.ok (vis, st')) :
    st'.all_devices = st.all_devices ∧
    ∀ a, containsKey vis a = false →
      lookupKey st'.device_rssi a = lookupKey st.device_rssi a := by
  obtain ⟨sampled, rssiMap, hscan, hall, -, hrm⟩ := simulate_ok_elim st o now vis st' h
  refine ⟨hall, fun a ha => ?_⟩
  rw [hrm]
  exact scanLoop_frame _ _ _ _ _ _ _ _ _ hscan a ha

/-! ## Witnesses: the theorems with hypotheses applied at concrete inputs -/

/-- Witness for C2 at the 10-named-device fixture. -/
theorem simulate_visible_superset_named_witness :
    simulate_scan_cycle st10 simOracle "t1" = Except.ok (vis10, st10') ∧
    ∀ a ∈ named_addrs st10.all_devices, containsKey vis10 a = true :=
  ⟨by rfl, simulate_visible_superset_named st10 simOracle "t1" vis10 st10' (by rfl)⟩

/-- Witness for C3: one cycle over the 10-named-device fixture. -/
theorem device_rssi_always_in_band_witness :
    (∀ i : Nat, RSSI_RANGE.1 ≤ io30.initRssi i ∧ io30.initRssi i ≤ RSSI_RANGE.2) ∧
    runCycles (fun _ => simOracle) (fun _ => "t1") 1 (load_devices reg10 io30) =
      Except.ok st10' ∧
    rssiInBand st10'.device_rssi :=
  ⟨fun _ => by norm_num [io30, RSSI_RANGE], by rfl,
   device_rssi_always_in_band reg10 io30 (fun _ => simOracle) (fun _ => "t1") 1 st10'
     (fun _ => by norm_num [io30, RSSI_RANGE]) (by rfl)⟩

/-- Witness for C4: the spec's second-sighting scenario for `B`. -/
theorem merge_existing_updates_witness :
    lookupKey regAB sB.address = some (mkRec "Unknown" "B") ∧
    (∃ r', lookupKey (mergeSighting regAB sB) sB.address = some r' ∧
      r'.last_seen = sB.timestamp ∧
      r'.rssi = sB.rssi ∧
      r'.times_seen = (mkRec "Unknown" "B").times_seen + 1 ∧
      r'.name = (if nameOrUnknown sB.name ≠ "Unknown" ∧ (mkRec "Unknown" "B").name = "Unknown"
                 then nameOrUnknown sB.name else (mkRec "Unknown" "B").name)) :=
  ⟨by decide, merge_existing_updates regAB sB (mkRec "Unknown" "B") (by decide)⟩

/-- Witness for C5: the spec's new-address scenario for `C`. -/
theorem merge_new_creates_witness :
    lookupKey regAB sC.address = none ∧
    (lookupKey (mergeSighting regAB sC) sC.address =
       some { name := nameOrUnknown sC.name, address := sC.address, rssi := sC.rssi,
              last_seen := sC.timestamp, first_seen := sC.timestamp, times_seen := 1 } ∧
     (mergeSighting regAB sC).length = regAB.length + 1) :=
  ⟨by decide, merge_new_creates regAB sC (by decide)⟩

/-- Witness for C6: two anonymous re-sightings of the named `A`. -/
theorem name_never_reverts_witness :
    lookupKey regAB "A" = some (mkRec "Foo" "A") ∧
    (mkRec "Foo" "A").name ≠ "Unknown" ∧
    (∃ r', lookupKey (mergeAll regAB ssA) "A" = some r' ∧
       r'.name = (mkRec "Foo" "A").name) :=
  ⟨by decide, by decide,
   name_never_reverts regAB "A" (mkRec "Foo" "A") ssA (by decide) (by decide)⟩

/-- Witness for C7: two sightings of the fresh address `X`. -/
theorem times_seen_counts_merges_witness :
    lookupKey ([] : Registry) "X" = none ∧
    Option.map DeviceRecord.times_seen (lookupKey (mergeAll [] ssX) "X") =
      (if countFor "X" ssX = 0 then none else some ((countFor "X" ssX : Int))) :=
  ⟨rfl, times_seen_counts_merges [] "X" ssX rfl⟩

/-- Witness for C8: `A` keeps its `first_seen` across the merges of `ssA`. -/
theorem first_seen_invariant_witness :
    lookupKey regAB "A" = some (mkRec "Foo" "A") ∧
    (∃ r', lookupKey (mergeAll regAB ssA) "A" = some r' ∧
       r'.first_seen = (mkRec "Foo" "A").first_seen) :=
  ⟨by decide, first_seen_invariant regAB "A" (mkRec "Foo" "A") ssA (by decide)⟩

/-- Witness for C10 at the 10-named-device fixture. -/
theorem simulate_frame_witness :
    simulate_scan_cycle st10 simOracle "t1" = Except.ok (vis10, st10') ∧
    (st10'.all_devices = st10.all_devices ∧
     ∀ a, containsKey vis10 a = false →
       lookupKey st10'.device_rssi a = lookupKey st10.device_rssi a) :=
  ⟨by rfl, simulate_frame st10 simOracle "t1" vis10 st10' (by rfl)⟩

end MockBLE
